import Mathlib

/-!
Verification development for the SEO core of the CryptoVersus site
(`src/core/seo/meta-tags.js`, `schema.js`, `sitemap.js`, `index.js`).

The JavaScript sources are shallowly embedded: DOM-resident state (document
title, head elements) becomes an explicit `Doc` value threaded through the
operations, the mutable sitemap registry becomes an explicit `SiteStructure`
value, and the two-variant `Result` contract becomes an inductive type.
JavaScript numbers used for sitemap priorities are modelled as `ℚ`
(decimal literals are written with `mkRat` so that proofs can compute).
Strings are modelled as Lean `String`; JS `String.prototype.startsWith`
is modelled by a character-list prefix test.
-/

namespace CV

/-- Modelled from the spec: the `Result` algebraic type (imported from
`../types/result.js`, which is not among the provided sources) is the
two-variant success/failure union consumed as a given error-handling
substrate; `Result.fromTry` converts a thrown exception into the failure
variant. The error payload is modelled as the exception message. -/
inductive Result (α : Type) where
  | success (value : α)
  | error (msg : String)
  deriving Repr

/-- Whether a result is the success variant (JS `result.type === 'Success'`). -/
def Result.isSuccess {α : Type} : Result α → Bool
  | .success _ => true
  | .error _ => false

/-- Whether a result is the failure variant (JS `result.type === 'Error'`). -/
def Result.isError {α : Type} : Result α → Bool
  | .success _ => false
  | .error _ => true

/-- JS `x || d` for an optional string field: `undefined` and the empty
string are falsy and select the default. -/
def jsOr (x : Option String) (d : String) : String :=
  match x with
  | none => d
  | some s => if s = "" then d else s

/-- JS `x || d` for an optional numeric field: `undefined` and `0` are falsy
and select the default. -/
def jsOrQ (x : Option ℚ) (d : ℚ) : ℚ :=
  match x with
  | none => d
  | some q => if q = 0 then d else q

/-- JS `!x` for an optional string field: true for `undefined` and `""`. -/
def jsFalsyStr (x : Option String) : Bool :=
  match x with
  | none => true
  | some s => s == ""

/-- Models JS `String.prototype.startsWith` (also used for the CSS
attribute-prefix selectors `[property^="og:"]`, `[name^="twitter:"]`). -/
def strStartsWith (s pfx : String) : Bool :=
  pfx.data.isPrefixOf s.data

/-- Modelled from the spec: the escaping primitive `escape` (imported from
`../security/functions.js`, which is not among the provided sources) is
described as neutralizing HTML-significant characters. Standard HTML entity
escaping of a single character; the double quote and apostrophe are written
via `Char.ofNat` (34 and 39). -/
def escChar (c : Char) : String :=
  if c = '&' then "&amp;"
  else if c = '<' then "&lt;"
  else if c = '>' then "&gt;"
  else if c = Char.ofNat 34 then "&quot;"
  else if c = Char.ofNat 39 then "&#x27;"
  else String.singleton c

/-- Modelled from the spec: `escape(string) -> string`, character-wise HTML
entity escaping. -/
def escape (s : String) : String :=
  s.data.foldr (fun c acc => escChar c ++ acc) ""

/-- Core SEO configuration record shape (`SEO_CONFIG` in `meta-tags.js`). -/
structure SiteConfig where
  siteName : String
  siteUrl : String
  defaultTitle : String
  defaultDescription : String
  defaultKeywords : String
  defaultImage : String
  twitterHandle : String
  author : String
  language : String
  locale : String
  deriving Repr, DecidableEq

/-- `SEO_CONFIG` from `meta-tags.js`. -/
def SEO_CONFIG : SiteConfig :=
  { siteName := "CryptoVersus.io"
    siteUrl := "https://cryptoversus.io"
    defaultTitle := "CryptoVersus.io - Enterprise Decentralized Infrastructure"
    defaultDescription := "Leading provider of enterprise decentralized infrastructure solutions. AWS for the decentralized web with security, scalability, and innovation."
    defaultKeywords := "blockchain, decentralized infrastructure, enterprise web3, crypto solutions, decentralized web, blockchain development, enterprise blockchain"
    defaultImage := "https://cryptoversus.io/images/og-image.jpg"
    twitterHandle := "@cryptoversus"
    author := "CryptoVersus Team"
    language := "en"
    locale := "en_US" }

/-- Per-page SEO configuration record shape (the entries of
`PAGE_SEO_CONFIG`; every entry carries exactly these four fields). -/
structure PageConfig where
  title : String
  description : String
  keywords : String
  canonical : String
  deriving Repr, DecidableEq

/-- The `home` entry of `PAGE_SEO_CONFIG`. -/
def homeConfig : PageConfig :=
  { title := "CryptoVersus.io - Enterprise Decentralized Infrastructure"
    description := "Leading provider of enterprise decentralized infrastructure solutions. Transform your business with secure, scalable Web3 technology."
    keywords := "enterprise blockchain, decentralized infrastructure, web3 solutions, blockchain development, crypto enterprise"
    canonical := "/" }

/-- `PAGE_SEO_CONFIG` from `meta-tags.js`, as an association list keyed by
page identifier (JS object property lookup becomes `List.lookup`). -/
def PAGE_SEO_CONFIG : List (String × PageConfig) :=
  [("home", homeConfig),
   ("services",
    { title := "Our Services - CryptoVersus.io"
      description := "Comprehensive decentralized infrastructure services including blockchain development, smart contracts, DeFi solutions, and enterprise Web3 consulting."
      keywords := "blockchain services, smart contracts, DeFi, Web3 consulting, blockchain development services"
      canonical := "/services" }),
   ("about",
    { title := "About Us - CryptoVersus.io"
      description := "Learn about CryptoVersus.io team and our mission to revolutionize enterprise infrastructure through decentralized technology."
      keywords := "about cryptoversus, blockchain company, decentralized technology team, web3 experts"
      canonical := "/about" }),
   ("contact",
    { title := "Contact Us - CryptoVersus.io"
      description := "Get in touch with CryptoVersus.io experts for your enterprise decentralized infrastructure needs. Start your Web3 transformation today."
      keywords := "contact cryptoversus, blockchain consultation, web3 experts contact"
      canonical := "/contact" }),
   ("faqs",
    { title := "FAQs - CryptoVersus.io"
      description := "Frequently asked questions about CryptoVersus.io services, decentralized infrastructure, and enterprise blockchain solutions."
      keywords := "blockchain FAQ, decentralized infrastructure questions, web3 FAQ"
      canonical := "/faqs" }),
   ("mission",
    { title := "Our Mission - CryptoVersus.io"
      description := "Discover CryptoVersus.io mission to democratize enterprise access to decentralized infrastructure and drive Web3 adoption."
      keywords := "cryptoversus mission, web3 vision, decentralized infrastructure mission"
      canonical := "/mission" })]

/-- The JS spread merge `{ ...SEO_CONFIG, ...pageConfig }`: page fields
override site defaults. None of the page entries carries a `type` or
`image` field, so those remain absent after the merge. -/
structure MergedConfig where
  siteName : String
  siteUrl : String
  defaultTitle : String
  defaultDescription : String
  defaultKeywords : String
  defaultImage : String
  twitterHandle : String
  author : String
  language : String
  locale : String
  title : String
  description : String
  keywords : String
  canonical : String
  type : Option String
  image : Option String
  deriving Repr, DecidableEq

/-- `{ ...SEO_CONFIG, ...pageConfig }`. -/
def mergeConfig (p : PageConfig) : MergedConfig :=
  { siteName := SEO_CONFIG.siteName
    siteUrl := SEO_CONFIG.siteUrl
    defaultTitle := SEO_CONFIG.defaultTitle
    defaultDescription := SEO_CONFIG.defaultDescription
    defaultKeywords := SEO_CONFIG.defaultKeywords
    defaultImage := SEO_CONFIG.defaultImage
    twitterHandle := SEO_CONFIG.twitterHandle
    author := SEO_CONFIG.author
    language := SEO_CONFIG.language
    locale := SEO_CONFIG.locale
    title := p.title
    description := p.description
    keywords := p.keywords
    canonical := p.canonical
    type := none
    image := none }

/-- Outcome of a JavaScript property read on an object literal: an own
key's value, a truthy value inherited from `Object.prototype` (for the
prototype's property keys), or `undefined`. -/
inductive PropLookup (α : Type) where
  | own (value : α)
  | inherited
  | absent
  deriving Repr

/-- The complete set of property keys inherited by an object literal from
`Object.prototype` (ECMAScript: the constructor, the methods, the
`__proto__` accessor and the four legacy accessor-definition methods).
Reading any of these on `PAGE_SEO_CONFIG` / `PAGE_SCHEMAS` yields a truthy
function or object, so the `|| home` fallback does not fire there. -/
def OBJECT_PROTOTYPE_KEYS : List String :=
  ["constructor", "hasOwnProperty", "isPrototypeOf", "propertyIsEnumerable",
   "toLocaleString", "toString", "valueOf", "__proto__",
   "__defineGetter__", "__defineSetter__", "__lookupGetter__", "__lookupSetter__"]

/-- JavaScript property access `table[key]` on an object literal: an own
key wins, otherwise the prototype chain is consulted, otherwise the read
yields `undefined`. -/
def jsProp {α : Type} (table : List (String × α)) (key : String) : PropLookup α :=
  match List.lookup key table with
  | some v => .own v
  | none => if key ∈ OBJECT_PROTOTYPE_KEYS then .inherited else .absent

/-- The page-specific fields visible after spreading an inherited
`Object.prototype` member over `SEO_CONFIG`: functions and
`Object.prototype` itself have no own enumerable properties, so the merge
contributes nothing and every page field stays `undefined`. An absent
(`undefined`) page field is modelled by the empty string, which every
consumer treats identically (`createMetaTag` drops falsy content, the
canonical guards test falsiness, and `canonical || '/'` defaults both). -/
def inheritedPageFields : PageConfig :=
  { title := "", description := "", keywords := "", canonical := "" }

/-- `getPageSEOConfig` from `meta-tags.js`:
`Maybe.fromNullable(PAGE_SEO_CONFIG[pageId])` is `Just` both for an own key
and for a truthy inherited `Object.prototype` member (where the merge
contributes no page fields); only an absent key takes the `getOrElse` home
fallback. -/
def getPageSEOConfig (pageId : String) : MergedConfig :=
  match jsProp PAGE_SEO_CONFIG pageId with
  | .own cfg => mergeConfig cfg
  | .inherited => mergeConfig inheritedPageFields
  | .absent => mergeConfig homeConfig

/-- JSON-serializable structured-data values (`schema.org` documents). -/
inductive Json where
  | str (s : String)
  | num (n : Int)
  | arr (elems : List Json)
  | obj (fields : List (String × Json))
  deriving Repr

/-- Document-head resident elements: `<meta>` tags (attribute list),
`<link>` tags (rel, href, extra attributes) and `<script>` blocks
(type attribute, `data-schema` marker, serialized structured data —
`JSON.stringify` is abstracted by storing the `Json` value itself). -/
inductive HeadElem where
  | meta (attrs : List (String × String))
  | link (rel : String) (href : String) (attrs : List (String × String))
  | script (type : String) (dataSchema : Bool) (content : Json)
  deriving Repr

/-- The document state owned by the SEO core: title plus head elements. -/
structure Doc where
  title : String
  head : List HeadElem
  deriving Repr

/-- An empty document, used as a concrete starting state. -/
def emptyDoc : Doc := { title := "", head := [] }

/-- Attribute lookup on an element's attribute list. -/
def getAttr (attrs : List (String × String)) (key : String) : Option String :=
  List.lookup key attrs

/-- Attribute presence test (CSS `[key]` selector). -/
def hasAttr (attrs : List (String × String)) (key : String) : Bool :=
  (List.lookup key attrs).isSome

/-- `createMetaTag` from `meta-tags.js`: `null` for falsy content, otherwise
a `<meta>` element with either a `property` or a `name` attribute; the
content value passes through `escape`. -/
def createMetaTag (name : String) (content : String)
    (property : Option String := none) : Option HeadElem :=
  if content = "" then none
  else some (.meta (match property with
    | some p => [("property", p), ("content", escape content)]
    | none => [("name", name), ("content", escape content)]))

/-- `createLinkTag` from `meta-tags.js`: rel and href are assigned directly
(no escaping in the source), plus any extra attributes. -/
def createLinkTag (rel href : String)
    (attrs : List (String × String) := []) : HeadElem :=
  .link rel href attrs

/-- The `tags` array built by `generateBasicMetaTags` (with `null` slots):
description, keywords, author, language, robots, plus the canonical link
when a canonical path is configured. -/
def basicTagOptions (config : MergedConfig) : List (Option HeadElem) :=
  [createMetaTag "description" config.description,
   createMetaTag "keywords" config.keywords,
   createMetaTag "author" config.author,
   createMetaTag "language" config.language,
   createMetaTag "robots" "index, follow"] ++
  (if config.canonical ≠ "" then
    [some (createLinkTag "canonical" (config.siteUrl ++ config.canonical))]
   else [])

/-- `generateBasicMetaTags`. The `Result.fromTry` wrapper never catches
anything for this pure construction, so the embedding returns the success
variant directly (likewise for the other three groups). -/
def generateBasicMetaTags (pageConfig : PageConfig) : Result (List HeadElem) :=
  let config := mergeConfig pageConfig
  .success ((basicTagOptions config).filterMap id)

/-- The `tags` array built by `generateOpenGraphTags`. -/
def ogTagOptions (config : MergedConfig) : List (Option HeadElem) :=
  [createMetaTag "og:title" config.title (some "og:title"),
   createMetaTag "og:description" config.description (some "og:description"),
   createMetaTag "og:type" (jsOr config.type "website") (some "og:type"),
   createMetaTag "og:url"
     (config.siteUrl ++ (if config.canonical = "" then "/" else config.canonical))
     (some "og:url"),
   createMetaTag "og:site_name" config.siteName (some "og:site_name"),
   createMetaTag "og:image" (jsOr config.image config.defaultImage) (some "og:image"),
   createMetaTag "og:image:width" "1200" (some "og:image:width"),
   createMetaTag "og:image:height" "630" (some "og:image:height"),
   createMetaTag "og:locale" config.locale (some "og:locale")]

/-- `generateOpenGraphTags`. -/
def generateOpenGraphTags (pageConfig : PageConfig) : Result (List HeadElem) :=
  let config := mergeConfig pageConfig
  .success ((ogTagOptions config).filterMap id)

/-- The `tags` array built by `generateTwitterTags`. -/
def twitterTagOptions (config : MergedConfig) : List (Option HeadElem) :=
  [createMetaTag "twitter:card" "summary_large_image",
   createMetaTag "twitter:site" config.twitterHandle,
   createMetaTag "twitter:creator" config.twitterHandle,
   createMetaTag "twitter:title" config.title,
   createMetaTag "twitter:description" config.description,
   createMetaTag "twitter:image" (jsOr config.image config.defaultImage)]

/-- `generateTwitterTags`. -/
def generateTwitterTags (pageConfig : PageConfig) : Result (List HeadElem) :=
  let config := mergeConfig pageConfig
  .success ((twitterTagOptions config).filterMap id)

/-- The `tags` array built by `generateAdditionalMetaTags`: theme color,
mobile web-app flags, MS tile settings and the referrer policy. -/
def additionalTagOptions (config : MergedConfig) : List (Option HeadElem) :=
  [createMetaTag "theme-color" "#667eea",
   createMetaTag "apple-mobile-web-app-capable" "yes",
   createMetaTag "apple-mobile-web-app-status-bar-style" "default",
   createMetaTag "apple-mobile-web-app-title" config.siteName,
   createMetaTag "msapplication-TileColor" "#667eea",
   createMetaTag "msapplication-config" "/browserconfig.xml",
   createMetaTag "referrer" "strict-origin-when-cross-origin"]

/-- `generateAdditionalMetaTags`. -/
def generateAdditionalMetaTags (pageConfig : PageConfig) : Result (List HeadElem) :=
  let config := mergeConfig pageConfig
  .success ((additionalTagOptions config).filterMap id)

/-- The removal step of `updateMetaTags`: an element survives iff it is a
meta tag carrying `charset`, `name="viewport"` or any `http-equiv`
attribute, a stylesheet or icon link, or any non-meta non-link element
(the selectors `meta:not([charset]):not([name="viewport"]):not([http-equiv])`
and `link:not([rel="stylesheet"]):not([rel="icon"])` pick what is removed). -/
def keepElem : HeadElem → Bool
  | .meta attrs =>
      hasAttr attrs "charset" || (getAttr attrs "name" == some "viewport") ||
        hasAttr attrs "http-equiv"
  | .link rel _ _ => rel == "stylesheet" || rel == "icon"
  | .script _ _ _ => true

/-- The body of `updateMetaTags` after the configuration lookup: set the
title, remove replaceable meta/link tags, generate the four tag groups and
append them; returns the number of appended tags. The error branch models
the `throw` when a group generation fails (unreachable for these pure
generators). -/
def updateMetaTagsCfg (pageConfig : PageConfig) (d : Doc) : Result Nat × Doc :=
  let kept := d.head.filter keepElem
  match generateBasicMetaTags pageConfig, generateOpenGraphTags pageConfig,
      generateTwitterTags pageConfig, generateAdditionalMetaTags pageConfig with
  | .success b, .success o, .success t, .success a =>
      let allTags := b ++ o ++ t ++ a
      (.success allTags.length, { title := pageConfig.title, head := kept ++ allTags })
  | _, _, _, _ =>
      (.error "Failed to generate meta tags", { title := pageConfig.title, head := kept })

/-- The `updateMetaTags` body when `pageId` resolves an inherited
`Object.prototype` member: `pageConfig` is the inherited function/object,
so `document.title = pageConfig.title` writes the string `undefined`, and
the spread merge inside each generator contributes no page fields
(see `inheritedPageFields`). -/
def updateMetaTagsProto (d : Doc) : Result Nat × Doc :=
  ((updateMetaTagsCfg inheritedPageFields d).1,
   { title := "undefined", head := (updateMetaTagsCfg inheritedPageFields d).2.head })

/-- `updateMetaTags` from `meta-tags.js`:
`PAGE_SEO_CONFIG[pageId] || PAGE_SEO_CONFIG.home` — an own key or, for the
inherited `Object.prototype` keys, the truthy inherited member (no home
fallback there) — then the replace-and-regenerate body. -/
def updateMetaTags (pageId : String) (d : Doc) : Result Nat × Doc :=
  match jsProp PAGE_SEO_CONFIG pageId with
  | .own cfg => updateMetaTagsCfg cfg d
  | .inherited => updateMetaTagsProto d
  | .absent => updateMetaTagsCfg homeConfig d

/-- `generateOrganizationSchema` from `schema.js`. -/
def generateOrganizationSchema : Result Json :=
  .success (Json.obj
    [("@context", .str "https://schema.org"),
     ("@type", .str "Organization"),
     ("name", .str "CryptoVersus.io"),
     ("url", .str "https://cryptoversus.io"),
     ("logo", .str "https://cryptoversus.io/images/logo.png"),
     ("description", .str "Leading provider of enterprise decentralized infrastructure solutions"),
     ("foundingDate", .str "2023"),
     ("sameAs", .arr
       [.str "https://twitter.com/cryptoversus",
        .str "https://linkedin.com/company/cryptoversus",
        .str "https://github.com/cryptoversus"]),
     ("contactPoint", .obj
       [("@type", .str "ContactPoint"),
        ("contactType", .str "customer service"),
        ("email", .str "contact@cryptoversus.io"),
        ("url", .str "https://cryptoversus.io/contact")]),
     ("address", .obj
       [("@type", .str "PostalAddress"),
        ("addressCountry", .str "US"),
        ("addressRegion", .str "Global")]),
     ("aggregateRating", .obj
       [("@type", .str "AggregateRating"),
        ("ratingValue", .str "4.9"),
        ("reviewCount", .str "127"),
        ("bestRating", .str "5")])])

/-- `generateWebsiteSchema` from `schema.js` (the brace characters of the
search template are written with `\x7b`/`\x7d` escapes). -/
def generateWebsiteSchema : Result Json :=
  .success (Json.obj
    [("@context", .str "https://schema.org"),
     ("@type", .str "WebSite"),
     ("name", .str "CryptoVersus.io"),
     ("url", .str "https://cryptoversus.io"),
     ("description", .str "Enterprise decentralized infrastructure solutions and Web3 services"),
     ("publisher", .obj
       [("@type", .str "Organization"),
        ("name", .str "CryptoVersus.io"),
        ("url", .str "https://cryptoversus.io")]),
     ("potentialAction", .obj
       [("@type", .str "SearchAction"),
        ("target", .str "https://cryptoversus.io/search?q=\x7bsearch_term_string\x7d"),
        ("query-input", .str "required name=search_term_string")])])

/-- `generateServiceSchemas` from `schema.js`: an `ItemList` of the three
service documents, positions assigned by `index + 1`. -/
def generateServiceSchemas : Result Json :=
  let services : List Json :=
    [.obj
      [("@type", .str "Service"),
       ("name", .str "Blockchain Development"),
       ("description", .str "Custom blockchain development and smart contract solutions for enterprises"),
       ("provider", .obj [("@type", .str "Organization"), ("name", .str "CryptoVersus.io")]),
       ("serviceType", .str "Technology Consulting"),
       ("audience", .obj [("@type", .str "BusinessAudience"), ("audienceType", .str "Enterprise")])],
     .obj
      [("@type", .str "Service"),
       ("name", .str "DeFi Solutions"),
       ("description", .str "Decentralized Finance solutions and protocol development"),
       ("provider", .obj [("@type", .str "Organization"), ("name", .str "CryptoVersus.io")]),
       ("serviceType", .str "Financial Technology"),
       ("audience", .obj [("@type", .str "BusinessAudience"), ("audienceType", .str "Enterprise")])],
     .obj
      [("@type", .str "Service"),
       ("name", .str "Web3 Infrastructure"),
       ("description", .str "Scalable Web3 infrastructure and decentralized application hosting"),
       ("provider", .obj [("@type", .str "Organization"), ("name", .str "CryptoVersus.io")]),
       ("serviceType", .str "Cloud Computing"),
       ("audience", .obj [("@type", .str "BusinessAudience"), ("audienceType", .str "Enterprise")])]]
  .success (Json.obj
    [("@context", .str "https://schema.org"),
     ("@type", .str "ItemList"),
     ("itemListElement", .arr (services.enum.map (fun p =>
       Json.obj
         [("@type", .str "ListItem"),
          ("position", .num (Int.ofNat (p.1 + 1))),
          ("item", p.2)])))])

/-- `generateFAQSchema` from `schema.js` (the apostrophe in one answer is
written as `\x27`). -/
def generateFAQSchema : Result Json :=
  let faqs : List (String × String) :=
    [("What is decentralized infrastructure?",
      "Decentralized infrastructure refers to distributed computing systems that operate without a central authority, providing increased security, transparency, and resilience compared to traditional centralized systems."),
     ("How can enterprises benefit from Web3 technology?",
      "Enterprises can benefit from Web3 through improved security, reduced intermediary costs, enhanced transparency, global accessibility, and innovative business models that weren\x27t possible with traditional technology."),
     ("What services does CryptoVersus.io provide?",
      "We provide comprehensive decentralized infrastructure services including blockchain development, smart contract creation, DeFi solutions, Web3 consulting, and enterprise blockchain integration."),
     ("Is blockchain technology secure for enterprise use?",
      "Yes, when properly implemented, blockchain technology offers superior security through cryptographic protection, distributed consensus, and immutable record-keeping, making it ideal for enterprise applications."),
     ("How long does a typical blockchain project take?",
      "Project timelines vary based on complexity, but typical enterprise blockchain implementations range from 3-12 months, including planning, development, testing, and deployment phases.")]
  .success (Json.obj
    [("@context", .str "https://schema.org"),
     ("@type", .str "FAQPage"),
     ("mainEntity", .arr (faqs.map (fun f =>
       Json.obj
         [("@type", .str "Question"),
          ("name", .str f.1),
          ("acceptedAnswer", .obj
            [("@type", .str "Answer"),
             ("text", .str f.2)])])))])

/-- `generateOfferingSchema` from `schema.js`. -/
def generateOfferingSchema : Result Json :=
  .success (Json.obj
    [("@context", .str "https://schema.org"),
     ("@type", .str "Product"),
     ("name", .str "Enterprise Decentralized Infrastructure"),
     ("description", .str "Comprehensive Web3 and blockchain infrastructure solutions for enterprises"),
     ("brand", .obj [("@type", .str "Brand"), ("name", .str "CryptoVersus.io")]),
     ("category", .str "Business Software"),
     ("manufacturer", .obj [("@type", .str "Organization"), ("name", .str "CryptoVersus.io")]),
     ("offers", .obj
       [("@type", .str "Offer"),
        ("availability", .str "https://schema.org/InStock"),
        ("price", .str "Contact for pricing"),
        ("priceCurrency", .str "USD"),
        ("priceValidUntil", .str "2025-12-31"),
        ("seller", .obj [("@type", .str "Organization"), ("name", .str "CryptoVersus.io")])])])

/-- `generateLocalBusinessSchema` from `schema.js`. -/
def generateLocalBusinessSchema : Result Json :=
  .success (Json.obj
    [("@context", .str "https://schema.org"),
     ("@type", .str "ProfessionalService"),
     ("name", .str "CryptoVersus.io"),
     ("image", .str "https://cryptoversus.io/images/logo.png"),
     ("description", .str "Professional decentralized infrastructure and blockchain development services"),
     ("url", .str "https://cryptoversus.io"),
     ("telephone", .str "+1-555-CRYPTO"),
     ("email", .str "contact@cryptoversus.io"),
     ("address", .obj
       [("@type", .str "PostalAddress"),
        ("addressCountry", .str "US"),
        ("addressRegion", .str "Global")]),
     ("geo", .obj
       [("@type", .str "GeoCoordinates"),
        ("latitude", .str "40.7128"),
        ("longitude", .str "-74.0060")]),
     ("openingHoursSpecification", .obj
       [("@type", .str "OpeningHoursSpecification"),
        ("dayOfWeek", .arr
          [.str "Monday", .str "Tuesday", .str "Wednesday", .str "Thursday", .str "Friday"]),
        ("opens", .str "09:00"),
        ("closes", .str "18:00")]),
     ("priceRange", .str "$$$$")])

/-- The `home` entry of `PAGE_SCHEMAS`. -/
def homeSchemas : List (Result Json) :=
  [generateOrganizationSchema, generateWebsiteSchema, generateOfferingSchema]

/-- `PAGE_SCHEMAS` from `schema.js`: each page identifier maps to the
ordered list of schema generator results (the JS thunks are pure, so the
embedding stores their results directly). -/
def PAGE_SCHEMAS : List (String × List (Result Json)) :=
  [("home", homeSchemas),
   ("services", [generateOrganizationSchema, generateServiceSchemas, generateOfferingSchema]),
   ("about", [generateOrganizationSchema, generateLocalBusinessSchema]),
   ("contact", [generateOrganizationSchema, generateLocalBusinessSchema]),
   ("faqs", [generateOrganizationSchema, generateFAQSchema]),
   ("mission", [generateOrganizationSchema])]

/-- The selector `script[data-schema="true"]` used by
`removeExistingSchemas`. -/
def isSchemaScript : HeadElem → Bool
  | .script _ ds _ => ds
  | _ => false

/-- `insertSchemaScript`: a `<script type="application/ld+json">` element
carrying the removal marker and the serialized schema. -/
def insertSchemaScript (schemaData : Json) : HeadElem :=
  .script "application/ld+json" true schemaData

/-- The `updatePageSchemas` body for a resolved generator list: remove
every previously inserted schema script, insert each successfully
generated schema and return the inserted count (a failed generator is
skipped, never fatal). -/
def updatePageSchemasGens (schemas : List (Result Json)) (d : Doc) : Result Nat × Doc :=
  let kept := d.head.filter (fun e => !(isSchemaScript e))
  let inserted := schemas.filterMap (fun r =>
    match r with
    | .success j => some (insertSchemaScript j)
    | .error _ => none)
  (.success inserted.length, { d with head := kept ++ inserted })

/-- The `updatePageSchemas` body when the lookup resolves an inherited
`Object.prototype` member: the existing schema scripts have already been
removed (removal precedes the lookup in the source, so every branch keeps
it), `schemaGenerators` is the inherited built-in and `schemaGenerators()`
is a detached strict-mode call. For `toString` that call returns the
18-character string `[object Undefined]`, which `for…of` iterates
character-wise: no character carries a `type` field, so each iteration
inserts one marker-tagged script whose serialized payload is `undefined`
(rendered as the text `undefined`, modelled as `Json.str "undefined"`).
For every other inherited member the call or the iteration throws a
`TypeError` (`Object()` yields a non-iterable plain object for
`constructor`; the other built-ins throw on an undefined `this` or on
iterating their non-iterable result, and `__proto__` resolves to the
non-callable `Object.prototype`), which `Result.fromTry` converts into the
failure variant. -/
def updatePageSchemasProto (pageId : String) (d : Doc) : Result Nat × Doc :=
  let kept := d.head.filter (fun e => !(isSchemaScript e))
  if pageId = "toString" then
    let inserted := List.replicate 18 (insertSchemaScript (Json.str "undefined"))
    (.success inserted.length, { d with head := kept ++ inserted })
  else
    (.error "TypeError: schemas is not iterable", { d with head := kept })

/-- `updatePageSchemas` from `schema.js`:
`PAGE_SCHEMAS[pageId] || PAGE_SCHEMAS.home` — an own key or, for the
inherited `Object.prototype` keys, the truthy inherited member (no home
fallback there) — then remove-and-reinsert. -/
def updatePageSchemas (pageId : String) (d : Doc) : Result Nat × Doc :=
  match jsProp PAGE_SCHEMAS pageId with
  | .own gens => updatePageSchemasGens gens d
  | .inherited => updatePageSchemasProto pageId d
  | .absent => updatePageSchemasGens homeSchemas d

/-- A sitemap entry (`{url, priority, changefreq, lastmod}`); `url` is
`Option String` because `validateSitemap` distinguishes an absent field
(`undefined`, on which `.startsWith` throws) from an empty string. -/
structure SitemapEntry where
  url : Option String
  priority : ℚ
  changefreq : String
  lastmod : String
  deriving Repr, DecidableEq

/-- The mutable site-structure registry (`SITE_STRUCTURE` in `sitemap.js`):
static pages plus the dynamic collection. -/
structure SiteStructure where
  pages : List SitemapEntry
  dynamicPages : List SitemapEntry
  deriving Repr, DecidableEq

/-- The initial `SITE_STRUCTURE` value; `new Date().toISOString().split('T')[0]`
is the environment-supplied current date, passed as `today`. -/
def SITE_STRUCTURE (today : String) : SiteStructure :=
  { pages :=
      [{ url := some "/", priority := 1, changefreq := "daily", lastmod := today },
       { url := some "/services", priority := mkRat 9 10, changefreq := "weekly", lastmod := today },
       { url := some "/about", priority := mkRat 8 10, changefreq := "monthly", lastmod := today },
       { url := some "/contact", priority := mkRat 8 10, changefreq := "monthly", lastmod := today },
       { url := some "/faqs", priority := mkRat 7 10, changefreq := "weekly", lastmod := today },
       { url := some "/mission", priority := mkRat 6 10, changefreq := "monthly", lastmod := today }]
    dynamicPages := [] }

/-- `generateRobotsTxt` from `sitemap.js`: the fixed template, with the
sitemap location derived from `SEO_CONFIG.siteUrl`. -/
def generateRobotsTxt : Result String :=
  .success ("User-agent: *\n" ++ "Allow: /\n\n" ++
    "# Disallow development and admin paths\n" ++
    "Disallow: /admin/\n" ++ "Disallow: /dev/\n" ++ "Disallow: /tests/\n" ++
    "Disallow: *.js$\n" ++ "Disallow: /src/\n\n" ++
    ("Sitemap: " ++ SEO_CONFIG.siteUrl ++ "/sitemap.xml\n"))

/-- The argument object of `addPageToSitemap`; every field may be absent. -/
structure PageInfo where
  url : Option String
  priority : Option ℚ
  changefreq : Option String
  lastmod : Option String
  deriving Repr, DecidableEq

/-- The `newPage` object built by `addPageToSitemap`: falsy `priority`,
`changefreq` and `lastmod` fields are replaced by the defaults `0.5`,
`'monthly'` and the current date. -/
def newPageOf (pageInfo : PageInfo) (today : String) : SitemapEntry :=
  { url := pageInfo.url
    priority := jsOrQ pageInfo.priority (mkRat 1 2)
    changefreq := jsOr pageInfo.changefreq "monthly"
    lastmod := jsOr pageInfo.lastmod today }

/-- `addPageToSitemap` from `sitemap.js`: fails when `url` is falsy,
otherwise builds `newPage` (see `newPageOf`) and upserts by `url` into the
dynamic collection — replace in place at the first index found by
`findIndex`, else append. -/
def addPageToSitemap (pageInfo : PageInfo) (today : String) (s : SiteStructure) :
    Result SitemapEntry × SiteStructure :=
  if jsFalsyStr pageInfo.url then (.error "Page URL is required", s)
  else
    match s.dynamicPages.findIdx? (fun page => page.url == (newPageOf pageInfo today).url) with
    | some i =>
        (.success (newPageOf pageInfo today),
         { s with dynamicPages := s.dynamicPages.set i (newPageOf pageInfo today) })
    | none =>
        (.success (newPageOf pageInfo today),
         { s with dynamicPages := s.dynamicPages ++ [newPageOf pageInfo today] })

/-- The seven accepted `changefreq` tokens. -/
def validChangeFreqs : List String :=
  ["always", "hourly", "daily", "weekly", "monthly", "yearly", "never"]

/-- The regular expression `/^\d\x7b4\x7d-\d\x7b2\x7d-\d\x7b2\x7d$/` test on
`lastmod`: exactly `YYYY-MM-DD`. -/
def isDateFormat (s : String) : Bool :=
  match s.data with
  | [c0, c1, c2, c3, c4, c5, c6, c7, c8, c9] =>
      c0.isDigit && c1.isDigit && c2.isDigit && c3.isDigit && (c4 == '-') &&
        c5.isDigit && c6.isDigit && (c7 == '-') && c8.isDigit && c9.isDigit
  | _ => false

/-- The per-page error message `Page ${index}: Missing URL`. -/
def missingUrlMsg (i : Nat) : String := "Page " ++ toString i ++ ": Missing URL"

/-- The per-page warning `Page ${index}: URL should start with /`. -/
def urlSlashMsg (i : Nat) : String := "Page " ++ toString i ++ ": URL should start with /"

/-- The per-page error `Page ${index}: Priority must be between 0 and 1`. -/
def priorityMsg (i : Nat) : String := "Page " ++ toString i ++ ": Priority must be between 0 and 1"

/-- The per-page error `Page ${index}: Invalid changefreq value`. -/
def changefreqMsg (i : Nat) : String := "Page " ++ toString i ++ ": Invalid changefreq value"

/-- The per-page warning `Page ${index}: lastmod should be in YYYY-MM-DD format`. -/
def lastmodMsg (i : Nat) : String := "Page " ++ toString i ++ ": lastmod should be in YYYY-MM-DD format"

/-- The body of `validateSitemap`'s per-page `forEach` iteration: the
errors and warnings contributed by one page, or `none` when the iteration
throws — `!page.url` pushes the missing-URL error, but the unguarded
`page.url.startsWith('/')` on the next line throws a `TypeError` when
`url` is absent (`undefined`), aborting the whole validation. -/
def pageChecks (i : Nat) (page : SitemapEntry) : Option (List String × List String) :=
  let e1 := if jsFalsyStr page.url then [missingUrlMsg i] else []
  match page.url with
  | none => none
  | some u =>
      let w1 := if strStartsWith u "/" then [] else [urlSlashMsg i]
      let e2 := if page.priority < 0 ∨ page.priority > 1 then [priorityMsg i] else []
      let e3 := if validChangeFreqs.contains page.changefreq then [] else [changefreqMsg i]
      let w2 := if page.lastmod ≠ "" ∧ isDateFormat page.lastmod = false then [lastmodMsg i] else []
      some (e1 ++ e2 ++ e3, w1 ++ w2)

/-- Accumulate the per-page checks over the enumerated page list;
`none` as soon as any iteration throws. -/
def foldChecks : List (Nat × SitemapEntry) → Option (List String × List String)
  | [] => some ([], [])
  | (i, p) :: rest =>
      match pageChecks i p, foldChecks rest with
      | some (e, w), some (es, ws) => some (e ++ es, w ++ ws)
      | _, _ => none

/-- JS `Array.prototype.join` renders `undefined` as the empty string. -/
def jsJoinUrl (o : Option String) : String := o.getD ""

/-- `urls.filter((url, index) => urls.indexOf(url) !== index)`: the
duplicate occurrences (every occurrence after the first). -/
def dupUrls (urls : List (Option String)) : List (Option String) :=
  (urls.enum.filter (fun p => urls.indexOf p.2 != p.1)).map (fun p => p.2)

/-- The validation report of `validateSitemap`. -/
structure SitemapReport where
  isValid : Bool
  errors : List String
  warnings : List String
  totalPages : Nat
  deriving Repr, DecidableEq

/-- The duplicate-URL check of `validateSitemap`: one error naming every
occurrence after the first when any URL repeats across the combined
collection. -/
def sitemapDupErrors (allPages : List SitemapEntry) : List String :=
  let urls := allPages.map (fun p => p.url)
  let duplicates := dupUrls urls
  if duplicates.length > 0 then
    ["Duplicate URLs found: " ++ String.intercalate ", " (duplicates.map jsJoinUrl)]
  else []

/-- `validateSitemap` from `sitemap.js`: duplicate-URL check over the
combined collection, then the per-page checks; `isValid` is
`errors.length === 0`. A page with an absent `url` makes the `forEach`
throw, which `Result.fromTry` converts into the failure variant. -/
def validateSitemap (s : SiteStructure) : Result SitemapReport :=
  let allPages := s.pages ++ s.dynamicPages
  let dupErrors := sitemapDupErrors allPages
  match foldChecks allPages.enum with
  | none => .error "TypeError: Cannot read properties of undefined (reading startsWith)"
  | some (es, ws) =>
      let errors := dupErrors ++ es
      .success { isValid := errors.length == 0, errors := errors, warnings := ws,
                 totalPages := allPages.length }

/-- `querySelector('meta[name="description"]')` over the head. -/
def healthHasDescription (d : Doc) : Bool :=
  d.head.any (fun e =>
    match e with
    | .meta attrs => getAttr attrs "name" == some "description"
    | _ => false)

/-- `querySelector('meta[name="keywords"]')` over the head. -/
def healthHasKeywords (d : Doc) : Bool :=
  d.head.any (fun e =>
    match e with
    | .meta attrs => getAttr attrs "name" == some "keywords"
    | _ => false)

/-- `querySelector('meta[property^="og:"]')` over the head. -/
def healthHasOG (d : Doc) : Bool :=
  d.head.any (fun e =>
    match e with
    | .meta attrs =>
        match getAttr attrs "property" with
        | some p => strStartsWith p "og:"
        | none => false
    | _ => false)

/-- `querySelector('meta[name^="twitter:"]')` over the head. -/
def healthHasTwitter (d : Doc) : Bool :=
  d.head.any (fun e =>
    match e with
    | .meta attrs =>
        match getAttr attrs "name" with
        | some n => strStartsWith n "twitter:"
        | none => false
    | _ => false)

/-- `querySelectorAll('script[type="application/ld+json"]').length`. -/
def healthSchemasCount (d : Doc) : Nat :=
  (d.head.filter (fun e =>
    match e with
    | .script t _ _ => t == "application/ld+json"
    | _ => false)).length

/-- `querySelector('link[rel="canonical"]')?.href || 'Not set'`. -/
def healthCanonicalUrl (d : Doc) : String :=
  match d.head.findSome? (fun e =>
    match e with
    | .link rel href _ => if rel == "canonical" then some href else none
    | _ => none) with
  | some h => if h = "" then "Not set" else h
  | none => "Not set"

/-- The issue list assembled by `getSEOHealth`, in source push order. -/
def healthIssues (d : Doc) : List String :=
  (if healthHasDescription d then [] else ["Missing meta description"]) ++
  (if healthHasOG d then [] else ["Missing Open Graph tags"]) ++
  (if healthSchemasCount d == 0 then ["No structured data found"] else []) ++
  (if healthCanonicalUrl d == "Not set" then ["Missing canonical URL"] else [])

/-- The `overall` block of the health report. -/
structure SEOHealthOverall where
  status : String
  issues : List String
  score : Int
  deriving Repr, DecidableEq

/-- The health report of `getSEOHealth` (the environment-only fields —
performance timings, `window.location.pathname` — are outside the document
model and omitted). -/
structure SEOHealth where
  metaCount : Nat
  hasDescription : Bool
  hasKeywords : Bool
  hasOG : Bool
  hasTwitter : Bool
  schemasCount : Nat
  canonicalUrl : String
  docTitle : String
  overall : SEOHealthOverall
  deriving Repr, DecidableEq

/-- The pure body of `getSEOHealth`: derived flags, the issue list,
`status` from the issue count (`healthy` / `warning` when at most two /
`critical`), and `score = Math.max(0, 100 - issues.length * 20)`. -/
def computeSEOHealth (d : Doc) : SEOHealth :=
  let issues := healthIssues d
  { metaCount := (d.head.filter (fun e => match e with | .meta _ => true | _ => false)).length
    hasDescription := healthHasDescription d
    hasKeywords := healthHasKeywords d
    hasOG := healthHasOG d
    hasTwitter := healthHasTwitter d
    schemasCount := healthSchemasCount d
    canonicalUrl := healthCanonicalUrl d
    docTitle := d.title
    overall :=
      { status :=
          if issues.length == 0 then "healthy"
          else if issues.length ≤ 2 then "warning"
          else "critical"
        issues := issues
        score := max 0 (100 - (issues.length : Int) * 20) } }

/-- `getSEOHealth` from `index.js`: the `Result.fromTry` wrapper around the
pure report computation (which never throws). -/
def getSEOHealth (d : Doc) : Result SEOHealth :=
  .success (computeSEOHealth d)

/-- The summary object returned by a successful `updatePageSEO`. -/
structure SEOSummary where
  pageId : String
  metaTags : Nat
  schemas : Nat
  timestamp : String
  deriving Repr, DecidableEq

/-- The result-level skeleton of `updatePageSEO`: branch on the meta-tag
result, then on the schema result, wrapping either failure into one error;
on success build the summary. The analytics result is never consulted. -/
def updatePageSEOCore (pageId : String) (metaResult schemaResult : Result Nat)
    (now : String) : Result SEOSummary :=
  match metaResult with
  | .error e => .error ("Failed to update meta tags: " ++ e)
  | .success m =>
      match schemaResult with
      | .error e => .error ("Failed to update schemas: " ++ e)
      | .success sc =>
          .success { pageId := pageId, metaTags := m, schemas := sc, timestamp := now }

/-- `updateBrowserHistory` from `index.js`, as a pure path transformer:
push the canonical path only when it differs from the current path. -/
def updateBrowserHistory (pageId : String) (currentPath : String) : String :=
  let pageConfig := getPageSEOConfig pageId
  let canonicalPath := if pageConfig.canonical = "" then "/" else pageConfig.canonical
  let newPath := if canonicalPath = "/" then "/" else canonicalPath
  if currentPath ≠ newPath then newPath else currentPath

/-- The browser-owned state touched by `updatePageSEO`: the document and
the current history path. -/
structure BrowserState where
  doc : Doc
  path : String
  deriving Repr

/-- `updatePageSEO` from `index.js`: meta tags, then schemas (either
failure wrapped and propagated), then the history update; the
`AnalyticsUtils.trackPageView` call is a best-effort environment effect
whose `Result` (`analyticsOutcome`) is bound in the source but never
inspected. -/
def updatePageSEO (pageId : String) (st : BrowserState)
    (analyticsOutcome : Result Unit) (now : String) : Result SEOSummary × BrowserState :=
  let metaStep := updateMetaTags pageId st.doc
  match metaStep.1 with
  | .error e => (.error ("Failed to update meta tags: " ++ e), { st with doc := metaStep.2 })
  | .success m =>
      let schemaStep := updatePageSchemas pageId metaStep.2
      match schemaStep.1 with
      | .error e => (.error ("Failed to update schemas: " ++ e), { st with doc := schemaStep.2 })
      | .success sc =>
          let newPath := updateBrowserHistory pageId st.path
          (.success { pageId := pageId, metaTags := m, schemas := sc, timestamp := now },
           { doc := schemaStep.2, path := newPath })

/-- Split a character list at newline characters (observation helper for
parsing the generated robots.txt line by line). -/
def splitNl : List Char → List Char → List (List Char)
  | [], acc => [acc.reverse]
  | x :: xs, acc =>
      if x = '\n' then acc.reverse :: splitNl xs [] else splitNl xs (x :: acc)

/-- The lines of a string (observation helper). -/
def lines (s : String) : List String :=
  (splitNl s.data []).map (fun l => String.mk l)

/-- Whether a string contains a raw `<` character (observation helper:
`escape` output never does). -/
def strHasLt (s : String) : Bool := s.data.any (fun c => c == '<')

/-- Whether `pat` occurs as a contiguous sublist of `l` (observation
helper). -/
def hasSublist (pat : List Char) : List Char → Bool
  | [] => pat.isPrefixOf []
  | c :: rest => pat.isPrefixOf (c :: rest) || hasSublist pat rest

/-- Whether some link element in the list carries a raw `<script>` substring
inside its `href` attribute value (observation helper). -/
def linkHrefUnescaped (l : List HeadElem) : Bool :=
  l.any (fun e =>
    match e with
    | .link _ href _ => hasSublist "<script>".data href.data
    | _ => false)

/-- Whether every `content` attribute of a meta element is free of raw `<`
and `>` characters (observation helper). -/
def metaContentEscapedB : HeadElem → Bool
  | .meta attrs =>
      attrs.all (fun p =>
        p.1 != "content" ||
          (!(p.2.data.any (fun c => c == '<')) && !(p.2.data.any (fun c => c == '>'))))
  | _ => true

/-- A hypothetical page configuration whose free-text values carry
executable markup, probing the escaping boundary. -/
def badCfg : PageConfig :=
  { title := "<script>alert(1)</script>"
    description := "Welcome"
    keywords := "crypto"
    canonical := "/x\"><script>alert(1)</script>" }

/-- The combined generated tag list of the four meta-tag groups (what
`updateMetaTags` appends to the head). -/
def genTags (pageConfig : PageConfig) : List HeadElem :=
  match generateBasicMetaTags pageConfig, generateOpenGraphTags pageConfig,
      generateTwitterTags pageConfig, generateAdditionalMetaTags pageConfig with
  | .success b, .success o, .success t, .success a => b ++ o ++ t ++ a
  | _, _, _, _ => []

/-- A concrete document with Open Graph tags and a canonical link but no
meta description and no structured-data scripts. -/
def c6doc : Doc :=
  { title := "t"
    head := [.meta [("property", "og:title"), ("content", "x")],
             .link "canonical" "https://cryptoversus.io/" []] }

/-- A registry state holding one dynamic entry with an absent `url` field. -/
def c7bad : SiteStructure :=
  { pages := []
    dynamicPages := [{ url := none, priority := mkRat 1 2, changefreq := "weekly",
                       lastmod := "2024-01-01" }] }

/-- A registry state holding one dynamic entry whose `url` is the empty
string (present but falsy). -/
def c7empty : SiteStructure :=
  { pages := []
    dynamicPages := [{ url := some "", priority := mkRat 1 2, changefreq := "weekly",
                       lastmod := "2024-01-01" }] }

/-! ## Theorems -/

/-- Helper: an unknown page identifier finds nothing in `PAGE_SEO_CONFIG`. -/
lemma lookup_pageConfig_unknown (pid : String)
    (h : pid ∉ (["home", "services", "about", "contact", "faqs", "mission"] : List String)) :
    List.lookup pid PAGE_SEO_CONFIG = none := by
  simp only [List.mem_cons, List.not_mem_nil, or_false, not_or] at h
  obtain ⟨h1, h2, h3, h4, h5, h6⟩ := h
  simp [PAGE_SEO_CONFIG, List.lookup, beq_eq_false_iff_ne.mpr h1,
    beq_eq_false_iff_ne.mpr h2, beq_eq_false_iff_ne.mpr h3, beq_eq_false_iff_ne.mpr h4,
    beq_eq_false_iff_ne.mpr h5, beq_eq_false_iff_ne.mpr h6]

/-- Helper: an unknown page identifier finds nothing in `PAGE_SCHEMAS`. -/
lemma lookup_pageSchemas_unknown (pid : String)
    (h : pid ∉ (["home", "services", "about", "contact", "faqs", "mission"] : List String)) :
    List.lookup pid PAGE_SCHEMAS = none := by
  simp only [List.mem_cons, List.not_mem_nil, or_false, not_or] at h
  obtain ⟨h1, h2, h3, h4, h5, h6⟩ := h
  simp [PAGE_SCHEMAS, List.lookup, beq_eq_false_iff_ne.mpr h1,
    beq_eq_false_iff_ne.mpr h2, beq_eq_false_iff_ne.mpr h3, beq_eq_false_iff_ne.mpr h4,
    beq_eq_false_iff_ne.mpr h5, beq_eq_false_iff_ne.mpr h6]

/-- C1 counterexample: the identifier `constructor` lies outside the
closed enumeration, yet the truthy inherited `Object.prototype.constructor`
preempts the `|| home` fallback: `updatePageSchemas` returns a failure
`Result` (home succeeds with 3 schemas), and `updateMetaTags` writes the
title `undefined` and appends 21 tags versus home's 28. -/
theorem fallback_counterexample :
    ("constructor" ∉ (["home", "services", "about", "contact", "faqs", "mission"] : List String)) ∧
    (updatePageSchemas "constructor" emptyDoc).1.isError = true ∧
    (updatePageSchemas "home" emptyDoc).1 = Result.success 3 ∧
    updatePageSchemas "constructor" emptyDoc ≠ updatePageSchemas "home" emptyDoc ∧
    (updateMetaTags "constructor" emptyDoc).2.title = "undefined" ∧
    (updateMetaTags "constructor" emptyDoc).1 = Result.success 21 ∧
    (updateMetaTags "home" emptyDoc).1 = Result.success 28 ∧
    updateMetaTags "constructor" emptyDoc ≠ updateMetaTags "home" emptyDoc := by
  refine ⟨by decide, rfl, rfl, fun hcontra => ?_, rfl, rfl, rfl, fun hcontra => ?_⟩
  · exact absurd (congrArg (fun r => r.1.isError) hcontra) (by decide)
  · exact absurd (congrArg (fun r => r.2.title) hcontra) (by decide)

/-- C1 amended: for every page identifier outside the closed enumeration
that is not an inherited `Object.prototype` property key, `updateMetaTags`
and `updatePageSchemas` behave identically to the `home` invocation (same
result and same document state) and the configuration lookup resolves to
the `home` configuration without failing; at the inherited prototype keys
the fallback does not fire (see the counterexample). -/
theorem fallback_to_home (pid : String)
    (h : pid ∉ (["home", "services", "about", "contact", "faqs", "mission"] : List String))
    (hp : pid ∉ OBJECT_PROTOTYPE_KEYS)
    (d : Doc) :
    updateMetaTags pid d = updateMetaTags "home" d ∧
    updatePageSchemas pid d = updatePageSchemas "home" d ∧
    getPageSEOConfig pid = getPageSEOConfig "home" := by
  have hc := lookup_pageConfig_unknown pid h
  have hs := lookup_pageSchemas_unknown pid h
  have hj1 : jsProp PAGE_SEO_CONFIG pid = PropLookup.absent := by
    unfold jsProp
    rw [hc]
    show (if pid ∈ OBJECT_PROTOTYPE_KEYS then PropLookup.inherited else PropLookup.absent) =
      PropLookup.absent
    rw [if_neg hp]
  have hj2 : jsProp PAGE_SCHEMAS pid = PropLookup.absent := by
    unfold jsProp
    rw [hs]
    show (if pid ∈ OBJECT_PROTOTYPE_KEYS then PropLookup.inherited else PropLookup.absent) =
      PropLookup.absent
    rw [if_neg hp]
  refine ⟨?_, ?_, ?_⟩
  · unfold updateMetaTags
    rw [hj1]
    rfl
  · unfold updatePageSchemas
    rw [hj2]
    rfl
  · unfold getPageSEOConfig
    rw [hj1]
    rfl

/-- Witness for the amended C1 at the concrete identifier `nonexistent`
(neither an own key nor an inherited prototype key) and the empty
document. -/
theorem fallback_to_home_witness :
    ("nonexistent" ∉ (["home", "services", "about", "contact", "faqs", "mission"] : List String)) ∧
    ("nonexistent" ∉ OBJECT_PROTOTYPE_KEYS) ∧
    (updateMetaTags "nonexistent" emptyDoc = updateMetaTags "home" emptyDoc ∧
     updatePageSchemas "nonexistent" emptyDoc = updatePageSchemas "home" emptyDoc ∧
     getPageSEOConfig "nonexistent" = getPageSEOConfig "home") :=
  ⟨by decide, by decide, fallback_to_home "nonexistent" (by decide) (by decide) emptyDoc⟩

/-- C2: `updatePageSEO` fails exactly when the meta-tag step or the schema
step fails, wrapping the component error into one error; the outcome of the
best-effort analytics emission never influences the result. -/
theorem updatePageSEO_failure_propagation :
    (∀ pageId st analyticsOutcome now,
        (updatePageSEO pageId st analyticsOutcome now).1 =
          updatePageSEOCore pageId (updateMetaTags pageId st.doc).1
            (updatePageSchemas pageId (updateMetaTags pageId st.doc).2).1 now) ∧
    (∀ pageId e schemaResult now,
        updatePageSEOCore pageId (Result.error e) schemaResult now =
          Result.error ("Failed to update meta tags: " ++ e)) ∧
    (∀ pageId m e now,
        updatePageSEOCore pageId (Result.success m) (Result.error e) now =
          Result.error ("Failed to update schemas: " ++ e)) ∧
    (∀ pageId metaResult schemaResult now,
        (updatePageSEOCore pageId metaResult schemaResult now).isError =
          (metaResult.isError || schemaResult.isError)) ∧
    (∀ pageId st a a' now, updatePageSEO pageId st a now = updatePageSEO pageId st a' now) := by
  refine ⟨?_, ?_, ?_, ?_, ?_⟩
  · intro pageId st a now
    cases hm : (updateMetaTags pageId st.doc).1 with
    | success m =>
        cases hsc : (updatePageSchemas pageId (updateMetaTags pageId st.doc).2).1 with
        | success sc => simp [updatePageSEO, updatePageSEOCore, hm, hsc]
        | error e => simp [updatePageSEO, updatePageSEOCore, hm, hsc]
    | error e => simp [updatePageSEO, updatePageSEOCore, hm]
  · intro pageId e s now; rfl
  · intro pageId m e now; rfl
  · intro pageId mr sr now; cases mr <;> cases sr <;> rfl
  · intro pageId st a a' now; rfl

/-- C9: `generateRobotsTxt` succeeds; parsed line by line its text opens
with `User-agent: *` then `Allow: /`, its `Disallow` lines are exactly the
five documented paths, and it names exactly one sitemap URL, namely
`SEO_CONFIG.siteUrl ++ "/sitemap.xml"`. -/
theorem generateRobotsTxt_spec :
    ∃ txt, generateRobotsTxt = Result.success txt ∧
      (lines txt).take 2 = ["User-agent: *", "Allow: /"] ∧
      (lines txt).filter (fun l => strStartsWith l "Disallow: ") =
        ["Disallow: /admin/", "Disallow: /dev/", "Disallow: /tests/",
         "Disallow: *.js$", "Disallow: /src/"] ∧
      (lines txt).filter (fun l => strStartsWith l "Sitemap: ") =
        ["Sitemap: " ++ SEO_CONFIG.siteUrl ++ "/sitemap.xml"] := by
  refine ⟨_, rfl, ?_, ?_, ?_⟩ <;> decide

/-- Helper: `escChar` never emits a raw angle bracket. -/
lemma escChar_no_angle (c : Char) :
    ((escChar c).data.any (fun x => x == '<')) = false ∧
    ((escChar c).data.any (fun x => x == '>')) = false := by
  unfold escChar
  split_ifs with h1 h2 h3 h4 h5
  · decide
  · decide
  · decide
  · decide
  · decide
  · have hd : (String.singleton c).data = [c] := rfl
    refine ⟨?_, ?_⟩
    · show ((String.singleton c).data.any (fun x => x == '<')) = false
      rw [hd]
      simp only [List.any_cons, List.any_nil, Bool.or_false]
      exact beq_eq_false_iff_ne.mpr h2
    · show ((String.singleton c).data.any (fun x => x == '>')) = false
      rw [hd]
      simp only [List.any_cons, List.any_nil, Bool.or_false]
      exact beq_eq_false_iff_ne.mpr h3

/-- Helper: `escape` output never contains a raw angle bracket. -/
lemma escape_no_angle (s : String) :
    ((escape s).data.any (fun c => c == '<')) = false ∧
    ((escape s).data.any (fun c => c == '>')) = false := by
  unfold escape
  suffices h : ∀ l : List Char,
      (((l.foldr (fun c acc => escChar c ++ acc) "").data.any (fun c => c == '<')) = false ∧
       ((l.foldr (fun c acc => escChar c ++ acc) "").data.any (fun c => c == '>')) = false) from
    h s.data
  intro l
  induction l with
  | nil => decide
  | cons c cs ih =>
      simp only [List.foldr_cons, String.data_append, List.any_append, Bool.or_eq_false_iff]
      exact ⟨⟨(escChar_no_angle c).1, ih.1⟩, ⟨(escChar_no_angle c).2, ih.2⟩⟩

/-- Helper: the shape of a non-null `createMetaTag` result. -/
lemma createMetaTag_some (n c : String) (p : Option String) (e : HeadElem)
    (h : createMetaTag n c p = some e) :
    e = HeadElem.meta [("name", n), ("content", escape c)] ∨
    ∃ pv, e = HeadElem.meta [("property", pv), ("content", escape c)] := by
  by_cases hc : c = ""
  · simp [createMetaTag, hc] at h
  · cases p with
    | none =>
        left
        simp [createMetaTag, hc] at h
        exact h.symm
    | some pv =>
        right
        refine ⟨pv, ?_⟩
        simp [createMetaTag, hc] at h
        exact h.symm

/-- Helper: every content attribute written by `createMetaTag` is escaped. -/
lemma createMetaTag_escaped (n c : String) (p : Option String) (e : HeadElem)
    (h : createMetaTag n c p = some e) : metaContentEscapedB e = true := by
  rcases createMetaTag_some n c p e h with rfl | ⟨pv, rfl⟩
  · simp [metaContentEscapedB, (escape_no_angle c).1, (escape_no_angle c).2]
  · simp [metaContentEscapedB, (escape_no_angle c).1, (escape_no_angle c).2]

/-- Helper: a tag generated by `createMetaTag` with a non-`viewport` name is
removed by the removal selector of `updateMetaTags`. -/
lemma createMetaTag_not_kept (n c : String) (p : Option String) (e : HeadElem)
    (hn : (n == "viewport") = false) (h : createMetaTag n c p = some e) :
    keepElem e = false := by
  rcases createMetaTag_some n c p e h with rfl | ⟨pv, rfl⟩
  · simp [keepElem, hasAttr, getAttr, List.lookup, hn]
  · simp [keepElem, hasAttr, getAttr, List.lookup]

/-- Helper: every element of the combined generated tag list comes from
`createMetaTag` with a non-`viewport` name, or is the canonical link. -/
lemma genTags_mem (cfg : PageConfig) (e : HeadElem) (he : e ∈ genTags cfg) :
    (∃ n c p, (n == "viewport") = false ∧ createMetaTag n c p = some e) ∨
    ∃ href, e = createLinkTag "canonical" href := by
  have hg : genTags cfg =
      ((basicTagOptions (mergeConfig cfg)).filterMap id) ++
      ((ogTagOptions (mergeConfig cfg)).filterMap id) ++
      ((twitterTagOptions (mergeConfig cfg)).filterMap id) ++
      ((additionalTagOptions (mergeConfig cfg)).filterMap id) := rfl
  rw [hg] at he
  rcases List.mem_append.mp he with he3 | hadd
  rcases List.mem_append.mp he3 with he2 | htw
  rcases List.mem_append.mp he2 with hb | hog
  · obtain ⟨o, ho, hoe⟩ := List.mem_filterMap.mp hb
    simp only [id_eq] at hoe
    unfold basicTagOptions at ho
    rcases List.mem_append.mp ho with hlit | hite
    · simp only [List.mem_cons, List.not_mem_nil, or_false] at hlit
      rcases hlit with rfl | rfl | rfl | rfl | rfl
      · exact Or.inl ⟨_, _, _, by decide, hoe⟩
      · exact Or.inl ⟨_, _, _, by decide, hoe⟩
      · exact Or.inl ⟨_, _, _, by decide, hoe⟩
      · exact Or.inl ⟨_, _, _, by decide, hoe⟩
      · exact Or.inl ⟨_, _, _, by decide, hoe⟩
    · split at hite
      · simp only [List.mem_cons, List.not_mem_nil, or_false] at hite
        subst hite
        exact Or.inr ⟨_, (Option.some.injEq _ _ ▸ hoe).symm⟩
      · exact absurd hite (List.not_mem_nil o)
  · obtain ⟨o, ho, hoe⟩ := List.mem_filterMap.mp hog
    simp only [id_eq] at hoe
    unfold ogTagOptions at ho
    simp only [List.mem_cons, List.not_mem_nil, or_false] at ho
    rcases ho with rfl | rfl | rfl | rfl | rfl | rfl | rfl | rfl | rfl <;>
      exact Or.inl ⟨_, _, _, by decide, hoe⟩
  · obtain ⟨o, ho, hoe⟩ := List.mem_filterMap.mp htw
    simp only [id_eq] at hoe
    unfold twitterTagOptions at ho
    simp only [List.mem_cons, List.not_mem_nil, or_false] at ho
    rcases ho with rfl | rfl | rfl | rfl | rfl | rfl <;>
      exact Or.inl ⟨_, _, _, by decide, hoe⟩
  · obtain ⟨o, ho, hoe⟩ := List.mem_filterMap.mp hadd
    simp only [id_eq] at hoe
    unfold additionalTagOptions at ho
    simp only [List.mem_cons, List.not_mem_nil, or_false] at ho
    rcases ho with rfl | rfl | rfl | rfl | rfl | rfl | rfl <;>
      exact Or.inl ⟨_, _, _, by decide, hoe⟩

/-- Helper: every generated tag is removed again by the removal selector. -/
lemma genTags_not_kept (cfg : PageConfig) :
    ∀ e ∈ genTags cfg, keepElem e = false := by
  intro e he
  rcases genTags_mem cfg e he with ⟨n, c, p, hn, h⟩ | ⟨href, rfl⟩
  · exact createMetaTag_not_kept n c p e hn h
  · rfl

/-- Helper: every generated meta tag carries only escaped content. -/
lemma genTags_escaped (cfg : PageConfig) :
    ∀ e ∈ genTags cfg, metaContentEscapedB e = true := by
  intro e he
  rcases genTags_mem cfg e he with ⟨n, c, p, _, h⟩ | ⟨href, rfl⟩
  · exact createMetaTag_escaped n c p e h
  · rfl

/-- Helper: closed form of the `updateMetaTags` body. -/
lemma updateMetaTagsCfg_eq (cfg : PageConfig) (d : Doc) :
    updateMetaTagsCfg cfg d =
      (Result.success (genTags cfg).length,
       { title := cfg.title, head := d.head.filter keepElem ++ genTags cfg }) := rfl

/-- C3 counterexample: with a page configuration whose canonical path and
title carry `<script>` markup, the `updateMetaTags` body writes the link
`href` and the document title unescaped — raw executable markup survives. -/
theorem escaping_counterexample :
    linkHrefUnescaped (updateMetaTagsCfg badCfg emptyDoc).2.head = true ∧
    strHasLt (updateMetaTagsCfg badCfg emptyDoc).2.title = true := by
  exact ⟨by decide, by decide⟩

/-- C3 amended: every element newly written into the head by the
`updateMetaTags` body has all of its meta `content` attribute values fully
escaped (no raw angle bracket survives); the exceptions forced by the
counterexample are the canonical link `href` and the document title, which
are assigned without escaping. -/
theorem escaping_amended (cfg : PageConfig) (d : Doc) (e : HeadElem)
    (h1 : e ∈ (updateMetaTagsCfg cfg d).2.head) (h2 : e ∉ d.head) :
    metaContentEscapedB e = true := by
  rw [updateMetaTagsCfg_eq] at h1
  rcases List.mem_append.mp h1 with hk | hg
  · exact absurd (List.mem_of_mem_filter hk) h2
  · exact genTags_escaped cfg e hg

/-- Witness for the amended C3 at the home configuration and the empty
document. -/
theorem escaping_amended_witness :
    (HeadElem.meta [("name", "description"), ("content", escape homeConfig.description)]
        ∈ (updateMetaTagsCfg homeConfig emptyDoc).2.head) ∧
    (HeadElem.meta [("name", "description"), ("content", escape homeConfig.description)]
        ∉ emptyDoc.head) ∧
    metaContentEscapedB
      (HeadElem.meta [("name", "description"), ("content", escape homeConfig.description)]) = true := by
  have hmem : HeadElem.meta [("name", "description"), ("content", escape homeConfig.description)]
      ∈ (updateMetaTagsCfg homeConfig emptyDoc).2.head :=
    List.mem_cons_self _ _
  exact ⟨hmem, List.not_mem_nil _,
    escaping_amended homeConfig emptyDoc _ hmem (List.not_mem_nil _)⟩

/-- C5: `updateMetaTags` is idempotent on the document: a second call with
the same page identifier returns the same count and leaves the head
unchanged, because each call first removes every replaceable meta/link tag
and then regenerates the full set. -/
theorem updateMetaTags_idempotent (pageId : String) (d : Doc) :
    updateMetaTags pageId (updateMetaTags pageId d).2 = updateMetaTags pageId d ∧
    (updateMetaTags pageId (updateMetaTags pageId d).2).1 = (updateMetaTags pageId d).1 := by
  have h1 : ∀ cfg : PageConfig, (genTags cfg).filter keepElem = [] := fun cfg =>
    List.filter_eq_nil_iff.mpr (fun e he => by
      rw [genTags_not_kept cfg e he]
      exact Bool.false_ne_true)
  have key : ∀ cfg d', updateMetaTagsCfg cfg (updateMetaTagsCfg cfg d').2 = updateMetaTagsCfg cfg d' := by
    intro cfg d'
    rw [updateMetaTagsCfg_eq cfg d', updateMetaTagsCfg_eq]
    simp only [List.filter_append, List.filter_filter, Bool.and_self, h1 cfg, List.append_nil]
  have keyP : ∀ d' : Doc, updateMetaTagsProto (updateMetaTagsProto d').2 = updateMetaTagsProto d' := by
    intro d'
    show (Result.success (genTags inheritedPageFields).length,
        ({ title := "undefined",
           head := (d'.head.filter keepElem ++ genTags inheritedPageFields).filter keepElem ++
             genTags inheritedPageFields } : Doc)) =
      (Result.success (genTags inheritedPageFields).length,
       ({ title := "undefined",
          head := d'.head.filter keepElem ++ genTags inheritedPageFields } : Doc))
    simp only [List.filter_append, List.filter_filter, Bool.and_self, h1 inheritedPageFields,
      List.append_nil]
  have main : updateMetaTags pageId (updateMetaTags pageId d).2 = updateMetaTags pageId d := by
    unfold updateMetaTags
    cases hj : jsProp PAGE_SEO_CONFIG pageId with
    | own cfg => exact key cfg d
    | inherited => exact keyP d
    | absent => exact key homeConfig d
  exact ⟨main, congrArg Prod.fst main⟩

/-- C6: `getSEOHealth` always succeeds with a report whose score is 100
minus 20 per detected issue floored at 0, whose status is `healthy` with no
issue, `warning` with one or two issues and `critical` with more than two;
in particular a document missing only the meta description and the
structured-data scripts scores 60 with status `warning`. -/
theorem getSEOHealth_scoring (d : Doc) :
    getSEOHealth d = Result.success (computeSEOHealth d) ∧
    (computeSEOHealth d).overall.issues = healthIssues d ∧
    (computeSEOHealth d).overall.score = max 0 (100 - 20 * ((healthIssues d).length : Int)) ∧
    ((computeSEOHealth d).overall.status = "healthy" ↔ (healthIssues d).length = 0) ∧
    ((computeSEOHealth d).overall.status = "warning" ↔
      (1 ≤ (healthIssues d).length ∧ (healthIssues d).length ≤ 2)) ∧
    ((computeSEOHealth d).overall.status = "critical" ↔ 2 < (healthIssues d).length) ∧
    (healthHasDescription d = false → healthSchemasCount d = 0 → healthHasOG d = true →
      healthCanonicalUrl d ≠ "Not set" →
      (computeSEOHealth d).overall.score = 60 ∧
        (computeSEOHealth d).overall.status = "warning") := by
  have hst : (computeSEOHealth d).overall.status =
      (if (healthIssues d).length == 0 then "healthy"
       else if (healthIssues d).length ≤ 2 then "warning" else "critical") := rfl
  have hsc : (computeSEOHealth d).overall.score =
      max 0 (100 - ((healthIssues d).length : Int) * 20) := rfl
  refine ⟨rfl, rfl, ?_, ?_, ?_, ?_, ?_⟩
  · rw [hsc, Int.mul_comm]
  · rw [hst]
    by_cases h0 : (healthIssues d).length = 0
    · simp [h0]
    · by_cases h2 : (healthIssues d).length ≤ 2
      · simp [h0, h2]
      · simp [h0, h2]
  · rw [hst]
    by_cases h0 : (healthIssues d).length = 0
    · simp [h0]
    · by_cases h2 : (healthIssues d).length ≤ 2
      · simp only [h0, h2]
        simp [h0, h2]
        omega
      · simp [h0, h2]
  · rw [hst]
    by_cases h0 : (healthIssues d).length = 0
    · simp [h0]
    · by_cases h2 : (healthIssues d).length ≤ 2
      · simp [h0, h2]
      · simp [h0, h2]
        omega
  · intro hD hS hOG hC
    have hiss : healthIssues d = ["Missing meta description", "No structured data found"] := by
      unfold healthIssues
      rw [hD, hOG, hS]
      simp [beq_eq_false_iff_ne.mpr hC]
    constructor
    · rw [hsc, hiss]
      decide
    · rw [hst, hiss]
      decide

/-- Witness for C6 at a concrete document carrying an Open Graph tag and a
canonical link but no description and no structured data. -/
theorem getSEOHealth_scoring_witness :
    healthHasDescription c6doc = false ∧ healthSchemasCount c6doc = 0 ∧
    healthHasOG c6doc = true ∧ healthCanonicalUrl c6doc ≠ "Not set" ∧
    (computeSEOHealth c6doc).overall.score = 60 ∧
    (computeSEOHealth c6doc).overall.status = "warning" := by
  obtain ⟨-, -, -, -, -, -, hinst⟩ := getSEOHealth_scoring c6doc
  have h := hinst (by decide) (by decide) (by decide) (by decide)
  exact ⟨by decide, by decide, by decide, by decide, h.1, h.2⟩

/-- Helper: when every entry has a present `url`, the per-page fold
succeeds, and every entry whose `url` is the empty string contributes its
missing-URL error to the error channel. -/
lemma foldChecks_present (l : List SitemapEntry) (n : Nat)
    (h : ∀ e ∈ l, e.url ≠ none) :
    ∃ es ws, foldChecks (List.enumFrom n l) = some (es, ws) ∧
      ∀ e ∈ l, e.url = some "" → ∃ i, missingUrlMsg i ∈ es := by
  induction l generalizing n with
  | nil => exact ⟨[], [], rfl, by simp⟩
  | cons p t ih =>
      obtain ⟨u, hu⟩ := Option.ne_none_iff_exists'.mp (h p (List.mem_cons_self p t))
      obtain ⟨es, ws, hfold, hmem⟩ := ih (n + 1) (fun e he => h e (List.mem_cons_of_mem p he))
      have hpc : pageChecks n p =
          some ((if jsFalsyStr p.url then [missingUrlMsg n] else []) ++
                 (if p.priority < 0 ∨ p.priority > 1 then [priorityMsg n] else []) ++
                 (if validChangeFreqs.contains p.changefreq then [] else [changefreqMsg n]),
                (if strStartsWith u "/" then [] else [urlSlashMsg n]) ++
                 (if p.lastmod ≠ "" ∧ isDateFormat p.lastmod = false then [lastmodMsg n] else [])) := by
        unfold pageChecks
        rw [hu]
      refine ⟨((if jsFalsyStr p.url then [missingUrlMsg n] else []) ++
          (if p.priority < 0 ∨ p.priority > 1 then [priorityMsg n] else []) ++
          (if validChangeFreqs.contains p.changefreq then [] else [changefreqMsg n])) ++ es,
        ((if strStartsWith u "/" then [] else [urlSlashMsg n]) ++
          (if p.lastmod ≠ "" ∧ isDateFormat p.lastmod = false then [lastmodMsg n] else [])) ++ ws,
        ?_, ?_⟩
      · rw [List.enumFrom_cons]
        simp only [foldChecks, hpc, hfold]
      · intro e he hurl
        rcases List.mem_cons.mp he with heq | het
        · subst heq
          refine ⟨n, List.mem_append_left _ (List.mem_append_left _ (List.mem_append_left _ ?_))⟩
          have hf : jsFalsyStr e.url = true := by rw [hurl]; rfl
          simp [hf]
        · obtain ⟨i, hi⟩ := hmem e het hurl
          exact ⟨i, List.mem_append_right _ hi⟩

/-- Helper: closed form of a successful `validateSitemap` run. -/
lemma validateSitemap_eq (s : SiteStructure) (es ws : List String)
    (hfold : foldChecks (s.pages ++ s.dynamicPages).enum = some (es, ws)) :
    validateSitemap s = Result.success
      { isValid := (sitemapDupErrors (s.pages ++ s.dynamicPages) ++ es).length == 0
        errors := sitemapDupErrors (s.pages ++ s.dynamicPages) ++ es
        warnings := ws
        totalPages := (s.pages ++ s.dynamicPages).length } := by
  simp only [validateSitemap, hfold]

/-- C7 counterexample: a registry state whose single dynamic entry carries
no `url` at all makes `validateSitemap` return a failure `Result` (the
unguarded `page.url.startsWith('/')` throws), not a success report carrying
the missing-URL error as data. -/
theorem validateSitemap_missing_url_counterexample :
    (c7bad.dynamicPages.map (fun e => e.url)) = [none] ∧
    validateSitemap c7bad =
      Result.error "TypeError: Cannot read properties of undefined (reading startsWith)" ∧
    (validateSitemap c7bad).isSuccess = false := by
  exact ⟨rfl, rfl, rfl⟩

/-- C7 amended: restricted to registry states whose entries all have a
present `url` field, `validateSitemap` returns a success report, and when
some entry's `url` is the empty string the report carries a missing-URL
error in its error channel with `isValid` false (reported as data); a truly
absent `url` field instead yields a failure `Result`, as the counterexample
shows. -/
theorem validateSitemap_missing_url_amended (s : SiteStructure)
    (hpresent : ∀ e ∈ s.pages ++ s.dynamicPages, e.url ≠ none) :
    ∃ r, validateSitemap s = Result.success r ∧
      ((∃ e ∈ s.pages ++ s.dynamicPages, e.url = some "") →
        r.isValid = false ∧ ∃ i, missingUrlMsg i ∈ r.errors) := by
  obtain ⟨es, ws, hfold, hmem⟩ := foldChecks_present (s.pages ++ s.dynamicPages) 0 hpresent
  have henum : (s.pages ++ s.dynamicPages).enum = List.enumFrom 0 (s.pages ++ s.dynamicPages) := rfl
  refine ⟨_, validateSitemap_eq s es ws (henum ▸ hfold), ?_⟩
  rintro ⟨e, he, hurl⟩
  obtain ⟨i, hi⟩ := hmem e he hurl
  refine ⟨?_, ⟨i, List.mem_append_right _ hi⟩⟩
  cases hl : sitemapDupErrors (s.pages ++ s.dynamicPages) ++ es with
  | nil => exact absurd hl (List.ne_nil_of_mem (List.mem_append_right _ hi))
  | cons a as => simp

/-- Witness for the amended C7 at a concrete one-entry registry whose
dynamic entry has the empty string as its `url`. -/
theorem validateSitemap_missing_url_witness :
    ∃ r, validateSitemap c7empty = Result.success r ∧ r.isValid = false ∧
      ∃ i, missingUrlMsg i ∈ r.errors := by
  obtain ⟨r, hr, himp⟩ := validateSitemap_missing_url_amended c7empty (by decide)
  obtain ⟨hv, hex⟩ := himp ⟨⟨some "", mkRat 1 2, "weekly", "2024-01-01"⟩, by decide, rfl⟩
  exact ⟨r, hr, hv, hex⟩

/-- C8: a successful `validateSitemap` report has `isValid` true exactly
when its error channel is empty (warnings never block validity); per entry,
priority exactly 1 and changefreq `weekly` produce no error, while priority
1.01 or -0.1 produces the priority error and changefreq `biweekly` produces
the changefreq error. -/
theorem validateSitemap_boundaries :
    (∀ s r, validateSitemap s = Result.success r → (r.isValid = true ↔ r.errors = [])) ∧
    (∀ i u lm, (u == "") = false →
      ((pageChecks i ⟨some u, 1, "weekly", lm⟩).map Prod.fst = some []) ∧
      ((pageChecks i ⟨some u, mkRat 101 100, "weekly", lm⟩).map Prod.fst =
        some [priorityMsg i]) ∧
      ((pageChecks i ⟨some u, mkRat (-1) 10, "weekly", lm⟩).map Prod.fst =
        some [priorityMsg i]) ∧
      ((pageChecks i ⟨some u, mkRat 1 2, "biweekly", lm⟩).map Prod.fst =
        some [changefreqMsg i])) := by
  constructor
  · intro s r h
    simp only [validateSitemap] at h
    cases hf : foldChecks (s.pages ++ s.dynamicPages).enum with
    | none =>
        simp only [hf] at h
        exact Result.noConfusion h
    | some pair =>
        obtain ⟨es, ws⟩ := pair
        simp only [hf] at h
        cases h
        simp [List.length_eq_zero]
  · intro i u lm hu
    have h1 : jsFalsyStr (some u) = false := hu
    refine ⟨?_, ?_, ?_, ?_⟩
    · have hp : ¬((1 : ℚ) < 0 ∨ (1 : ℚ) > 1) := by decide
      simp [pageChecks, h1, hp]
      decide
    · have hp : (mkRat 101 100 : ℚ) < 0 ∨ (mkRat 101 100 : ℚ) > 1 := Or.inr (by decide)
      simp [pageChecks, h1, hp]
      decide
    · have hp : (mkRat (-1) 10 : ℚ) < 0 ∨ (mkRat (-1) 10 : ℚ) > 1 := Or.inl (by decide)
      simp [pageChecks, h1, hp]
      decide
    · have hp : ¬((mkRat 1 2 : ℚ) < 0 ∨ (mkRat 1 2 : ℚ) > 1) := by decide
      simp [pageChecks, h1, hp]
      decide

/-- Witness for C8 at the initial registry and a concrete entry. -/
theorem validateSitemap_boundaries_witness :
    (∃ r, validateSitemap (SITE_STRUCTURE "2024-01-01") = Result.success r ∧
      (r.isValid = true ↔ r.errors = [])) ∧
    ((pageChecks 0 ⟨some "/blog/x", 1, "weekly", "2024-01-01"⟩).map Prod.fst = some []) ∧
    ((pageChecks 0 ⟨some "/blog/x", mkRat 101 100, "weekly", "2024-01-01"⟩).map Prod.fst =
      some [priorityMsg 0]) ∧
    ((pageChecks 0 ⟨some "/blog/x", mkRat (-1) 10, "weekly", "2024-01-01"⟩).map Prod.fst =
      some [priorityMsg 0]) ∧
    ((pageChecks 0 ⟨some "/blog/x", mkRat 1 2, "biweekly", "2024-01-01"⟩).map Prod.fst =
      some [changefreqMsg 0]) := by
  obtain ⟨ha, hb, hc, hd⟩ := validateSitemap_boundaries.2 0 "/blog/x" "2024-01-01" (by decide)
  exact ⟨⟨_, rfl, validateSitemap_boundaries.1 (SITE_STRUCTURE "2024-01-01") _ rfl⟩,
    ha, hb, hc, hd⟩

/-- Helper: the `findIndex`-then-`set`-or-`push` upsert pattern of
`addPageToSitemap` leaves exactly one matching entry when at most one entry
matched before. -/
lemma upsert_filter (l : List SitemapEntry) (e : SitemapEntry)
    (h : (l.filter (fun p : SitemapEntry => p.url == e.url)).length ≤ 1) :
    (match l.findIdx? (fun p : SitemapEntry => p.url == e.url) with
      | some i => l.set i e
      | none => l ++ [e]).filter (fun p : SitemapEntry => p.url == e.url) = [e] := by
  induction l with
  | nil => simp [List.findIdx?_nil]
  | cons hd tl ih =>
      by_cases hhd : (hd.url == e.url) = true
      · simp only [List.findIdx?_cons]
        rw [if_pos hhd]
        show ((hd :: tl).set 0 e).filter (fun p : SitemapEntry => p.url == e.url) = [e]
        rw [List.set_cons_zero]
        have htl : tl.filter (fun p : SitemapEntry => p.url == e.url) = [] := by
          rw [@List.filter_cons_of_pos _ (fun p : SitemapEntry => p.url == e.url) hd tl hhd] at h
          simp only [List.length_cons] at h
          exact List.length_eq_zero.mp (by omega)
        rw [@List.filter_cons_of_pos _ (fun p : SitemapEntry => p.url == e.url) e tl
          (beq_self_eq_true e.url), htl]
      · have hhd' : (hd.url == e.url) = false := by simpa using hhd
        have hnot : ¬((fun p : SitemapEntry => p.url == e.url) hd = true) := by simp [hhd']
        have hlen : (tl.filter (fun p : SitemapEntry => p.url == e.url)).length ≤ 1 := by
          rw [@List.filter_cons_of_neg _ (fun p : SitemapEntry => p.url == e.url) hd tl hnot] at h
          exact h
        simp only [List.findIdx?_cons]
        rw [if_neg hnot, List.findIdx?_succ]
        cases hidx : tl.findIdx? (fun p : SitemapEntry => p.url == e.url) with
        | none =>
            show (hd :: tl ++ [e]).filter (fun p : SitemapEntry => p.url == e.url) = [e]
            rw [List.cons_append, @List.filter_cons_of_neg _
              (fun p : SitemapEntry => p.url == e.url) hd (tl ++ [e]) hnot]
            have hrec := ih hlen
            rw [hidx] at hrec
            exact hrec
        | some j =>
            show ((hd :: tl).set (j + 1) e).filter (fun p : SitemapEntry => p.url == e.url) = [e]
            rw [List.set_cons_succ, @List.filter_cons_of_neg _
              (fun p : SitemapEntry => p.url == e.url) hd (tl.set j e) hnot]
            have hrec := ih hlen
            rw [hidx] at hrec
            exact hrec

/-- Helper: closed form of an accepted `addPageToSitemap` call. -/
lemma addPageToSitemap_eq (info : PageInfo) (today : String) (s : SiteStructure)
    (hu : jsFalsyStr info.url = false) :
    addPageToSitemap info today s =
      (Result.success (newPageOf info today),
       { s with dynamicPages :=
           match s.dynamicPages.findIdx? (fun page => page.url == (newPageOf info today).url) with
           | some i => s.dynamicPages.set i (newPageOf info today)
           | none => s.dynamicPages ++ [newPageOf info today] }) := by
  unfold addPageToSitemap
  rw [if_neg (by simp [hu])]
  cases s.dynamicPages.findIdx? (fun page => page.url == (newPageOf info today).url) <;> rfl

/-- Helper: the dynamic collection after one accepted upsert holds exactly
one entry with the upserted URL. -/
lemma addPageToSitemap_filter (info : PageInfo) (today : String) (s : SiteStructure)
    (u : Option String) (hiu : (newPageOf info today).url = u)
    (hu : jsFalsyStr info.url = false)
    (h : (s.dynamicPages.filter (fun p : SitemapEntry => p.url == u)).length ≤ 1) :
    ((addPageToSitemap info today s).2).dynamicPages.filter
        (fun p : SitemapEntry => p.url == u) = [newPageOf info today] := by
  subst hiu
  rw [addPageToSitemap_eq info today s hu]
  exact upsert_filter s.dynamicPages (newPageOf info today) h

/-- C4: `addPageToSitemap` never touches the static collection, fails on an
entry lacking a `url`, and upserts by `url`: two successive calls with the
same URL and a changed priority leave exactly one dynamic entry for that
URL, carrying the latest priority. -/
theorem addPageToSitemap_upsert :
    (∀ info today s, ((addPageToSitemap info today s).2).pages = s.pages) ∧
    (∀ info today s, jsFalsyStr info.url = true →
        addPageToSitemap info today s = (Result.error "Page URL is required", s)) ∧
    (∀ s today u p₁ p₂ cf lm, (u == "") = false →
        (s.dynamicPages.filter (fun p => p.url == some u)).length ≤ 1 →
        (((addPageToSitemap ⟨some u, some p₂, some cf, some lm⟩ today
            ((addPageToSitemap ⟨some u, some p₁, some cf, some lm⟩ today s).2)).2).dynamicPages.filter
          (fun p => p.url == some u) =
          [newPageOf ⟨some u, some p₂, some cf, some lm⟩ today]) ∧
        (p₂ ≠ 0 → (newPageOf ⟨some u, some p₂, some cf, some lm⟩ today).priority = p₂)) := by
  refine ⟨?_, ?_, ?_⟩
  · intro info today s
    by_cases hu : jsFalsyStr info.url = true
    · simp [addPageToSitemap, hu]
    · have hu' : jsFalsyStr info.url = false := by simpa using hu
      rw [addPageToSitemap_eq info today s hu']
  · intro info today s hu
    simp [addPageToSitemap, hu]
  · intro s today u p₁ p₂ cf lm hu hcount
    have hu' : jsFalsyStr (some u) = false := hu
    have hc1 : ((addPageToSitemap ⟨some u, some p₁, some cf, some lm⟩ today s).2).dynamicPages.filter
        (fun p : SitemapEntry => p.url == some u) =
        [newPageOf ⟨some u, some p₁, some cf, some lm⟩ today] :=
      addPageToSitemap_filter ⟨some u, some p₁, some cf, some lm⟩ today s (some u) rfl hu' hcount
    have hc2 := addPageToSitemap_filter ⟨some u, some p₂, some cf, some lm⟩ today
      ((addPageToSitemap ⟨some u, some p₁, some cf, some lm⟩ today s).2) (some u) rfl hu'
      (by rw [hc1]; simp)
    exact ⟨hc2, fun hp => by simp [newPageOf, jsOrQ, hp]⟩

/-- Witness for C4: upserting `/blog/x` twice into the initial registry
with priorities 0.5 then 0.75 leaves exactly one matching dynamic entry,
carrying 0.75. -/
theorem addPageToSitemap_upsert_witness :
    (((addPageToSitemap ⟨some "/blog/x", some (mkRat 3 4), some "weekly", some "2024-01-01"⟩
        "2024-01-01"
        ((addPageToSitemap ⟨some "/blog/x", some (mkRat 1 2), some "weekly", some "2024-01-01"⟩
          "2024-01-01" (SITE_STRUCTURE "2024-01-01")).2)).2).dynamicPages.filter
      (fun p => p.url == some "/blog/x") =
      [newPageOf ⟨some "/blog/x", some (mkRat 3 4), some "weekly", some "2024-01-01"⟩
        "2024-01-01"]) ∧
    (newPageOf ⟨some "/blog/x", some (mkRat 3 4), some "weekly", some "2024-01-01"⟩
      "2024-01-01").priority = mkRat 3 4 := by
  have h := addPageToSitemap_upsert.2.2 (SITE_STRUCTURE "2024-01-01") "2024-01-01" "/blog/x"
    (mkRat 1 2) (mkRat 3 4) "weekly" "2024-01-01" (by decide) (by decide)
  exact ⟨h.1, h.2 (by decide)⟩

/-- C10: an accepted `addPageToSitemap` call replaces every falsy
`priority`, `changefreq` and `lastmod` field with the defaults 0.5,
`monthly` and the current date — in particular an explicit priority of 0 is
stored as 0.5 — so no dynamic entry with priority 0 can ever be created
through this interface. -/
theorem addPageToSitemap_defaults (info : PageInfo) (today : String) (s : SiteStructure)
    (hu : jsFalsyStr info.url = false) :
    (addPageToSitemap info today s).1 = Result.success (newPageOf info today) ∧
    ((info.priority = none ∨ info.priority = some 0) →
      (newPageOf info today).priority = mkRat 1 2) ∧
    (∀ q, info.priority = some q → q ≠ 0 → (newPageOf info today).priority = q) ∧
    ((info.changefreq = none ∨ info.changefreq = some "") →
      (newPageOf info today).changefreq = "monthly") ∧
    ((info.lastmod = none ∨ info.lastmod = some "") →
      (newPageOf info today).lastmod = today) ∧
    (newPageOf info today).priority ≠ 0 ∧
    ((∀ e ∈ s.dynamicPages, e.priority ≠ 0) →
      ∀ e ∈ ((addPageToSitemap info today s).2).dynamicPages, e.priority ≠ 0) := by
  have heq := addPageToSitemap_eq info today s hu
  have hpr : (newPageOf info today).priority ≠ 0 := by
    show jsOrQ info.priority (mkRat 1 2) ≠ 0
    unfold jsOrQ
    cases info.priority with
    | none => decide
    | some q =>
        show (if q = 0 then mkRat 1 2 else q) ≠ 0
        by_cases hq : q = 0
        · rw [if_pos hq]; decide
        · rw [if_neg hq]; exact hq
  refine ⟨?_, ?_, ?_, ?_, ?_, hpr, ?_⟩
  · rw [heq]
  · rintro (h | h) <;> simp [newPageOf, jsOrQ, h]
  · intro q hq hq0
    simp [newPageOf, jsOrQ, hq, hq0]
  · rintro (h | h) <;> simp [newPageOf, jsOr, h]
  · rintro (h | h) <;> simp [newPageOf, jsOr, h]
  · intro hinv e he
    rw [heq] at he
    cases hidx : s.dynamicPages.findIdx? (fun page => page.url == (newPageOf info today).url) with
    | some i =>
        simp only [hidx] at he
        rcases List.mem_or_eq_of_mem_set he with hmem | heq'
        · exact hinv e hmem
        · rw [heq']; exact hpr
    | none =>
        simp only [hidx] at he
        rcases List.mem_append.mp he with hmem | hsing
        · exact hinv e hmem
        · rw [List.mem_singleton.mp hsing]; exact hpr

/-- Witness for C10: an entry with explicit priority 0, no changefreq and
empty lastmod is stored with priority 0.5, changefreq `monthly` and the
current date. -/
theorem addPageToSitemap_defaults_witness :
    (addPageToSitemap ⟨some "/blog/y", some 0, none, some ""⟩ "2024-01-01"
      (SITE_STRUCTURE "2024-01-01")).1 =
      Result.success (newPageOf ⟨some "/blog/y", some 0, none, some ""⟩ "2024-01-01") ∧
    (newPageOf ⟨some "/blog/y", some 0, none, some ""⟩ "2024-01-01").priority = mkRat 1 2 ∧
    (newPageOf ⟨some "/blog/y", some 0, none, some ""⟩ "2024-01-01").changefreq = "monthly" ∧
    (newPageOf ⟨some "/blog/y", some 0, none, some ""⟩ "2024-01-01").lastmod = "2024-01-01" ∧
    (newPageOf ⟨some "/blog/y", some 0, none, some ""⟩ "2024-01-01").priority ≠ 0 := by
  obtain ⟨h1, h2, -, h4, h5, h6, -⟩ := addPageToSitemap_defaults
    ⟨some "/blog/y", some 0, none, some ""⟩ "2024-01-01" (SITE_STRUCTURE "2024-01-01") (by decide)
  exact ⟨h1, h2 (Or.inr rfl), h4 (Or.inl rfl), h5 (Or.inr rfl), h6⟩

end CV
